import Mathlib

/-!
Verification development for the youtube-daily-digest repository.

The development shallowly embeds the video-processing pipeline
(services.VideoProcessor in the source) and its Excel-backed ledger
(storage.ExcelStorage, storage.ExcelSummary).  Go strings are modelled as
lists of characters, spreadsheet rows as lists of cells, and the Excel
sheets as lists of rows in file order (row 0 is the header row, as created
by ExcelStorage.Initialize).  Fallible collaborators (transcript client,
AI summarizer) are modelled as Option-valued oracles, and stateful code as
explicit state passing over the sheet lists.
-/

namespace YTD

/-- Text is modelled as a list of characters, mirroring a Go string. -/
abbrev Cell : Type := List Char

/-- A spreadsheet row is a list of cells, in column order starting at A. -/
abbrev Row : Type := List Cell

/-- The status string written at Summary creation (types.Summary.Status). -/
def newStatus : Cell := "New".toList

/-- The status string written by MarkSummariesProcessed. -/
def processedStatus : Cell := "Processed".toList

/-- The marker appended by VideoProcessor.processVideo when truncating. -/
def truncMarker : Cell := "... [truncated]".toList

/-- Label opening both fallback transcripts in processVideo. -/
def titleLabel : Cell := "Video Title: ".toList

/-- Label between title and description in the combined fallback. -/
def descLabel : Cell := "\n\nVideo Description: ".toList

/-- Tail of the generic templated fallback sentence in processVideo. -/
def genericTail : Cell := "\n\nThis video discusses topics related to the title. Please watch the video for detailed content.".toList

/-- Host part of the fallback thumbnail URL in processVideo. -/
def thumbHost : Cell := "https://img.youtube.com/vi/".toList

/-- Path tail of the fallback thumbnail URL in processVideo. -/
def thumbTail : Cell := "/maxresdefault.jpg".toList

/-- Model of a Go time.Time restricted to the calendar fields the two
layouts used by the repository can express. -/
structure GoTime where
  year : Nat
  month : Nat
  day : Nat
  hour : Nat
  minute : Nat
  second : Nat
deriving DecidableEq, Repr

/-- Decimal digits of a natural number, most significant first. -/
def natDigits (n : Nat) : List Char := Nat.toDigits 10 n

/-- Zero-pad a number to two characters, as the Go layout fragment 01 does. -/
def pad2 (n : Nat) : Cell :=
  List.replicate (2 - (natDigits n).length) '0' ++ natDigits n

/-- Zero-pad a number to four characters, as the Go layout fragment 2006 does. -/
def pad4 (n : Nat) : Cell :=
  List.replicate (4 - (natDigits n).length) '0' ++ natDigits n

/-- Modelled from the Go standard library: time.Time.Format with layout
2006-01-02 15:04:05, the only full-timestamp layout the repository uses. -/
def formatFull (t : GoTime) : Cell :=
  pad4 t.year ++ [ '-' ] ++ pad2 t.month ++ [ '-' ] ++ pad2 t.day ++ [ ' ' ] ++
    pad2 t.hour ++ [ ':' ] ++ pad2 t.minute ++ [ ':' ] ++ pad2 t.second

/-- Numeric value of a decimal digit character, if it is one. -/
def dig (c : Char) : Option Nat :=
  if c.isDigit then some (c.toNat - 48) else none

/-- Two-digit field of a Go time layout (zero-padded, exactly two digits). -/
def num2 (a b : Char) : Option Nat :=
  match dig a, dig b with
  | some x, some y => some (x * 10 + y)
  | _, _ => none

/-- Four-digit field of a Go time layout (the year). -/
def num4 (a b c d : Char) : Option Nat :=
  match dig a, dig b, dig c, dig d with
  | some x, some y, some z, some w => some (((x * 10 + y) * 10 + z) * 10 + w)
  | _, _, _, _ => none

/-- Modelled from the Go standard library: time.Parse with layout
2006-01-02 (date only), including the range validation Parse performs. -/
def parseDateOnly (s : Cell) : Option GoTime :=
  match s with
  | [y1, y2, y3, y4, a, m1, m2, b, d1, d2] =>
    if a = '-' ∧ b = '-' then
      match num4 y1 y2 y3 y4, num2 m1 m2, num2 d1 d2 with
      | some y, some mo, some da =>
        if 1 ≤ mo ∧ mo ≤ 12 ∧ 1 ≤ da ∧ da ≤ 31 then
          some ⟨y, mo, da, 0, 0, 0⟩
        else none
      | _, _, _ => none
    else none
  | _ => none

/-- Modelled from the Go standard library: time.Parse with layout
2006-01-02 15:04:05, including the range validation Parse performs. -/
def parseFull (s : Cell) : Option GoTime :=
  match s with
  | [y1, y2, y3, y4, a, m1, m2, b, d1, d2, sp, h1, h2, c1, n1, n2, c2, s1, s2] =>
    if a = '-' ∧ b = '-' ∧ sp = ' ' ∧ c1 = ':' ∧ c2 = ':' then
      match num4 y1 y2 y3 y4, num2 m1 m2, num2 d1 d2, num2 h1 h2, num2 n1 n2, num2 s1 s2 with
      | some y, some mo, some da, some h, some mi, some se =>
        if 1 ≤ mo ∧ mo ≤ 12 ∧ 1 ≤ da ∧ da ≤ 31 ∧ h ≤ 23 ∧ mi ≤ 59 ∧ se ≤ 59 then
          some ⟨y, mo, da, h, mi, se⟩
        else none
      | _, _, _, _, _, _ => none
    else none
  | _ => none

/-- Digits of a decimal numeral to its value; none on a non-digit or on the
empty string. -/
def digitsToNat : Cell → Option Nat
  | [] => none
  | [c] => dig c
  | c :: rest =>
    match dig c, digitsToNat rest with
    | some x, some r => some (x * 10 ^ rest.length + r)
    | _, _ => none

/-- Modelled from the Go standard library: strconv.ParseInt with base 10 and
bit size 64, as used by ExcelSummary.ToSummary for the view count. -/
def parseInt64 (s : Cell) : Option Int :=
  match s with
  | '+' :: rest => (digitsToNat rest).bind fun n =>
      if n ≤ 2 ^ 63 - 1 then some (Int.ofNat n) else none
  | '-' :: rest => (digitsToNat rest).bind fun n =>
      if n ≤ 2 ^ 63 then some (- Int.ofNat n) else none
  | _ => (digitsToNat s).bind fun n =>
      if n ≤ 2 ^ 63 - 1 then some (Int.ofNat n) else none

/-- Modelled from the Go standard library: strconv.FormatInt with base 10,
as used by storage.FromSummary for the view count. -/
def formatInt64 (n : Int) : Cell :=
  if n < 0 then '-' :: natDigits n.natAbs else natDigits n.natAbs

/-- Embedding of types.Channel. -/
structure Channel where
  id : Cell
  name : Cell
  username : Cell
deriving DecidableEq

/-- Embedding of types.Video (fields used by the pipeline). -/
structure Video where
  id : Cell
  title : Cell
  description : Cell
  channelID : Cell
  channelName : Cell
  publishedAt : GoTime
  duration : Cell
  viewCount : Int
  url : Cell
deriving DecidableEq

/-- Embedding of types.Summary, parameterised by the time representation so
that storage-layer results can be stated for arbitrary date parsers. -/
structure Summary (T : Type) where
  id : Cell
  videoID : Cell
  videoTitle : Cell
  channelName : Cell
  summary : Cell
  createdAt : T
  status : Cell
  videoURL : Cell
  publishedAt : T
  thumbnailURL : Cell
  duration : Cell
  viewCount : Int
deriving DecidableEq

/-- Embedding of storage.ExcelSummary: every field kept as cell text. -/
structure ExcelSummary where
  id : Cell
  videoID : Cell
  videoTitle : Cell
  channelName : Cell
  summary : Cell
  createdAt : Cell
  status : Cell
  videoURL : Cell
  publishedAt : Cell
  thumbnailURL : Cell
  duration : Cell
  viewCount : Cell
deriving DecidableEq

/-- Try the full timestamp layout, then the date-only layout: the parse
sequence ExcelSummary.ToSummary applies to each date cell. -/
def parseTwo {T : Type} (pF pD : Cell → Option T) (c : Cell) : Option T :=
  match pF c with
  | some t => some t
  | none => pD c

/-- Embedding of ExcelSummary.ToSummary, parameterised by the two date
parsers (models of time.Parse with the two layouts). -/
def toSummary {T : Type} (pF pD : Cell → Option T) (es : ExcelSummary) :
    Option (Summary T) :=
  (parseTwo pF pD es.createdAt).map fun createdAt =>
    { id := es.id
      videoID := es.videoID
      videoTitle := es.videoTitle
      channelName := es.channelName
      summary := es.summary
      createdAt := createdAt
      status := es.status
      videoURL := es.videoURL
      publishedAt := (parseTwo pF pD es.publishedAt).getD createdAt
      thumbnailURL := es.thumbnailURL
      duration := es.duration
      viewCount :=
        if es.viewCount = [] then 0 else (parseInt64 es.viewCount).getD 0 }

/-- Embedding of storage.FromSummary, parameterised by the time formatter
(model of time.Time.Format with the full layout). -/
def fromSummary {T : Type} (fmt : T → Cell) (s : Summary T) : ExcelSummary :=
  { id := s.id
    videoID := s.videoID
    videoTitle := s.videoTitle
    channelName := s.channelName
    summary := s.summary
    createdAt := fmt s.createdAt
    status := s.status
    videoURL := s.videoURL
    publishedAt := fmt s.publishedAt
    thumbnailURL := s.thumbnailURL
    duration := s.duration
    viewCount := formatInt64 s.viewCount }

/-- Embedding of ExcelStorage.SaveSummary: converts through FromSummary and
appends one row holding exactly the eight cells the code writes (columns A
through H: id, video id, video title, channel name, summary text, created
time, status, video URL). -/
def saveSummary {T : Type} (fmt : T → Cell) (sheet : List Row) (s : Summary T) :
    List Row :=
  let es := fromSummary fmt s
  sheet ++ [[es.id, es.videoID, es.videoTitle, es.channelName, es.summary,
             es.createdAt, es.status, es.videoURL]]

/-- Embedding of the per-row body of ExcelStorage.GetPendingSummaries: rows
with fewer than seven cells are skipped, rows whose seventh cell is not the
New status are skipped, and the remaining rows go through ToSummary. -/
def rowToPending {T : Type} (pF pD : Cell → Option T) (row : Row) :
    Option (Summary T) :=
  if row.length < 7 then none
  else if row.getD 6 [] = newStatus then
    toSummary pF pD
      { id := row.getD 0 []
        videoID := row.getD 1 []
        videoTitle := row.getD 2 []
        channelName := row.getD 3 []
        summary := row.getD 4 []
        createdAt := row.getD 5 []
        status := row.getD 6 []
        videoURL := row.getD 7 []
        publishedAt := row.getD 8 []
        thumbnailURL := row.getD 9 []
        duration := row.getD 10 []
        viewCount := row.getD 11 [] }
  else none

/-- Embedding of ExcelStorage.GetPendingSummaries: skip the header row, then
keep the rows rowToPending accepts, in sheet order. -/
def getPendingSummaries {T : Type} (pF pD : Cell → Option T)
    (sheet : List Row) : List (Summary T) :=
  (sheet.drop 1).filterMap (rowToPending pF pD)

/-- Write a cell at a column index, extending the row with empty cells when
it is shorter: the effect of excelize SetCellValue on one row. -/
def setCellAt : Row → Nat → Cell → Row
  | [], 0, v => [v]
  | [], j + 1, v => [] :: setCellAt [] j v
  | _ :: rest, 0, v => v :: rest
  | c :: rest, j + 1, v => c :: setCellAt rest j v

/-- Embedding of the per-row body of ExcelStorage.MarkSummariesProcessed:
empty rows are skipped; a row whose first cell is one of the requested ids
gets its seventh column (G, the status) set to Processed. -/
def markRow (ids : List Cell) : Row → Row
  | [] => []
  | c :: rest =>
    if c ∈ ids then setCellAt (c :: rest) 6 processedStatus else c :: rest

/-- Embedding of ExcelStorage.MarkSummariesProcessed: on an empty id list
return at once; otherwise leave the header row alone and update every data
row via markRow. -/
def markSummariesProcessed (sheet : List Row) (ids : List Cell) : List Row :=
  if ids.isEmpty then sheet
  else
    match sheet with
    | [] => []
    | header :: rest => header :: rest.map (markRow ids)

/-- Embedding of ExcelStorage.IsVideoProcessed: skip the header row, skip
rows without a first cell, report whether some row's first cell equals the
video id. -/
def isVideoProcessed (sheet : List Row) (vid : Cell) : Bool :=
  (sheet.drop 1).any fun row => decide (row.get? 0 = some vid)

/-- Embedding of ExcelStorage.MarkVideoProcessed: when the id is already
present return the sheet unchanged (the early nil return); otherwise append
one row holding the id, two blank cells, and the formatted current time. -/
def markVideoProcessed (sheet : List Row) (vid : Cell) (now : Cell) :
    List Row :=
  if isVideoProcessed sheet vid then sheet
  else sheet ++ [[vid, [], [], now]]

/-- The two ledger sheets the pipeline writes: the Summaries sheet and the
ProcessedVideos sheet, each a list of rows with the header at index 0. -/
structure LedgerState where
  summaries : List Row
  processed : List Row
deriving DecidableEq

/-- The configuration fields of types.Config consumed by processVideo. -/
structure Config where
  maxTranscriptLength : Nat
deriving DecidableEq

/-- The combined fallback transcript built first in processVideo:
title and description concatenated with labels. -/
def fallbackCombined (title desc : Cell) : Cell :=
  titleLabel ++ title ++ descLabel ++ desc

/-- The generic templated fallback sentence referencing only the title. -/
def fallbackGeneric (title : Cell) : Cell :=
  titleLabel ++ title ++ genericTail

/-- The fallback transcript processVideo uses when transcript acquisition
fails: the combined text, or the generic sentence when the combined text is
shorter than 50 characters. -/
def fallbackTranscript (title desc : Cell) : Cell :=
  if (fallbackCombined title desc).length < 50 then fallbackGeneric title
  else fallbackCombined title desc

/-- The deterministic fallback thumbnail URL processVideo derives from the
video id when transcript acquisition fails. -/
def thumbFallback (vid : Cell) : Cell := thumbHost ++ vid ++ thumbTail

/-- The truncation step of processVideo: a transcript longer than the
configured maximum is cut to the maximum and the marker is appended. -/
def truncateTranscript (t : Cell) (maxLen : Nat) : Cell :=
  if maxLen < t.length then t.take maxLen ++ truncMarker else t

/-- The transcript-acquisition block at the top of processVideo: the
transcript client result when it succeeds, otherwise the fallback
transcript and the fallback thumbnail URL. -/
def acquireTranscript (getTranscript : Cell → Option (Cell × Cell))
    (v : Video) : Cell × Cell :=
  match getTranscript v.id with
  | some (t, u) => (t, u)
  | none => (fallbackTranscript v.title v.description, thumbFallback v.id)

/-- The types.Summary record processVideo constructs: a fresh id from
generateSummaryID, the current time, status New, and the video metadata
carried through. -/
def summaryRecord (genID : Cell) (now : GoTime) (v : Video)
    (sumText thumb : Cell) : Summary GoTime :=
  { id := genID
    videoID := v.id
    videoTitle := v.title
    channelName := v.channelName
    summary := sumText
    createdAt := now
    status := newStatus
    videoURL := v.url
    publishedAt := v.publishedAt
    thumbnailURL := thumb
    duration := v.duration
    viewCount := v.viewCount }

/-- Embedding of the body of VideoProcessor.processVideo after transcript
acquisition: summarize the truncated transcript, build the Summary record,
save it, then mark the video processed. -/
def processVideo (getTranscript : Cell → Option (Cell × Cell))
    (summarize : Cell → Cell → Option Cell) (genID : Cell) (now : GoTime)
    (cfg : Config) (st : LedgerState) (v : Video) :
    Option (LedgerState × Summary GoTime) :=
  match summarize
      (truncateTranscript (acquireTranscript getTranscript v).1
        cfg.maxTranscriptLength) v.title with
  | none => none
  | some summaryText =>
    some
      (⟨saveSummary formatFull st.summaries
          (summaryRecord genID now v summaryText
            (acquireTranscript getTranscript v).2),
        markVideoProcessed st.processed v.id (formatFull now)⟩,
       summaryRecord genID now v summaryText
         (acquireTranscript getTranscript v).2)

/-- Outcome of the per-video step inside processChannel. -/
inductive StepOutcome where
  | skipped
  | processedOk
  | failed
deriving DecidableEq

/-- The per-video step of VideoProcessor.processChannel: the ledger
processed-check followed, when negative, by single-video processing.  On a
processVideo failure the loop logs and continues, leaving the state as it
was. -/
def videoStep (getTranscript : Cell → Option (Cell × Cell))
    (summarize : Cell → Cell → Option Cell) (genID : Cell) (now : GoTime)
    (cfg : Config) (st : LedgerState) (v : Video) :
    LedgerState × StepOutcome :=
  if isVideoProcessed st.processed v.id then (st, .skipped)
  else
    match processVideo getTranscript summarize genID now cfg st v with
    | some (st2, _) => (st2, .processedOk)
    | none => (st, .failed)

/-- Number of data rows of the Summaries sheet whose video-id column
(column B) holds the given video id. -/
def summaryRowsFor (sheet : List Row) (vid : Cell) : Nat :=
  (sheet.drop 1).countP fun row => decide (row.get? 1 = some vid)

/-- Number of data rows of the ProcessedVideos sheet whose first column
holds the given video id. -/
def processedRowsFor (sheet : List Row) (vid : Cell) : Nat :=
  (sheet.drop 1).countP fun row => decide (row.get? 0 = some vid)

/-- Embedding of VideoProcessor.ProcessNewVideos with the concurrent
fan-out flattened: reading the channel list is an Except-valued input, and
each channel's processing an Except-valued function.  The first component
is the value the Go function returns; the second lists the channel errors
it only logs. -/
def processNewVideos (getChannels : Except Cell (List Channel))
    (processChannel : Channel → Except Cell Unit) :
    Except Cell Unit × List Cell :=
  match getChannels with
  | .error e => (.error ("failed to get channels: ".toList ++ e), [])
  | .ok channels =>
    if channels.length = 0 then (.ok (), [])
    else
      (.ok (), channels.filterMap fun ch =>
        match processChannel ch with
        | .error e => some e
        | .ok _ => none)

/-- Lifecycle of one channel-processing goroutine with respect to the
admission gate: not yet started, blocked on the semaphore send, holding a
slot, or finished (slot released). -/
inductive TaskState where
  | notStarted
  | blocked
  | running
  | finished
deriving DecidableEq

/-- A configuration of the fan-out loop of ProcessNewVideos: the state of
every spawned task and the number of slots the buffered-channel semaphore
currently holds. -/
structure Pool where
  tasks : List TaskState
  sem : Nat
deriving DecidableEq

/-- Number of simultaneously active channel-processing tasks. -/
def activeTasks (p : Pool) : Nat :=
  p.tasks.countP fun t => decide (t = TaskState.running)

/-- Interleaving semantics of the fan-out of ProcessNewVideos with
concurrency limit K: a task may start (reaching the semaphore send), may
acquire a slot only while fewer than K slots are taken (a send on a
K-buffered channel blocks when full), and releases its slot when done. -/
inductive PoolStep (K : Nat) : Pool → Pool → Prop where
  | start (l1 l2 : List TaskState) (s : Nat) :
      PoolStep K ⟨l1 ++ TaskState.notStarted :: l2, s⟩
        ⟨l1 ++ TaskState.blocked :: l2, s⟩
  | acquire (l1 l2 : List TaskState) (s : Nat) (h : s < K) :
      PoolStep K ⟨l1 ++ TaskState.blocked :: l2, s⟩
        ⟨l1 ++ TaskState.running :: l2, s + 1⟩
  | release (l1 l2 : List TaskState) (s : Nat) :
      PoolStep K ⟨l1 ++ TaskState.running :: l2, s⟩
        ⟨l1 ++ TaskState.finished :: l2, s - 1⟩

/-- The initial configuration: N spawned tasks, none started, empty gate. -/
def initPool (n : Nat) : Pool := ⟨List.replicate n TaskState.notStarted, 0⟩

/-- Header row used by the concrete sheet examples. -/
def exHeader : Row := [ "ID".toList]

/-- A concrete summary holding every field, used as the saved record in the
persistence round-trip evaluation. -/
def c4Saved : Summary GoTime :=
  { id := "s1".toList
    videoID := "v1".toList
    videoTitle := "T".toList
    channelName := "C".toList
    summary := "Sum".toList
    createdAt := ⟨2024, 5, 6, 7, 8, 9⟩
    status := newStatus
    videoURL := "http://u".toList
    publishedAt := ⟨2023, 1, 2, 0, 0, 0⟩
    thumbnailURL := "http://thumb".toList
    duration := "10:00".toList
    viewCount := 42 }

/-- What the ledger actually returns for c4Saved: the four columns
SaveSummary never writes come back empty, zero, or substituted. -/
def c4Returned : Summary GoTime :=
  { id := "s1".toList
    videoID := "v1".toList
    videoTitle := "T".toList
    channelName := "C".toList
    summary := "Sum".toList
    createdAt := ⟨2024, 5, 6, 7, 8, 9⟩
    status := newStatus
    videoURL := "http://u".toList
    publishedAt := ⟨2024, 5, 6, 7, 8, 9⟩
    thumbnailURL := []
    duration := []
    viewCount := 0 }

/-- A concrete video for the pipeline evaluations. -/
def exVideo : Video :=
  { id := "v1".toList
    title := "T".toList
    description := "D".toList
    channelID := "ch".toList
    channelName := "C".toList
    publishedAt := ⟨2023, 1, 2, 0, 0, 0⟩
    duration := "10:00".toList
    viewCount := 7
    url := "http://u".toList }

/-- A concrete initialized ledger: both sheets hold just a header row. -/
def exLedger : LedgerState := ⟨[exHeader], [ [ "VideoID".toList] ]⟩

/-- A transcript oracle that always succeeds. -/
def exTranscriptOracle : Cell → Option (Cell × Cell) :=
  fun _ => some ( "Tr".toList, "Th".toList)

/-- A transcript oracle that always fails. -/
def failTranscriptOracle : Cell → Option (Cell × Cell) := fun _ => none

/-- A summarizer oracle that always succeeds with a fixed string. -/
def exSummarizeOracle : Cell → Cell → Option Cell :=
  fun _ _ => some ( "S".toList)

/-- The ledger state after the first successful run of the per-video step
on exVideo. -/
def exLedgerAfter : LedgerState :=
  (videoStep exTranscriptOracle exSummarizeOracle ( "sum_1".toList)
    ⟨2024, 1, 2, 3, 4, 5⟩ ⟨100⟩ exLedger exVideo).1

/-- A malformed summary row: a single cell, far fewer than seven. -/
def c10BadRow : Row := [ "x".toList]

/-- A reachable pool configuration with one running task out of two. -/
def c9Pool : Pool := ⟨[TaskState.running, TaskState.notStarted], 1⟩

/-- A video id is absent from the ProcessedVideos sheet exactly when its
processed-row count is zero. -/
theorem isVideoProcessed_false_iff (sheet : List Row) (vid : Cell) :
    isVideoProcessed sheet vid = false ↔ processedRowsFor sheet vid = 0 := by
  unfold isVideoProcessed processedRowsFor
  rw [List.countP_eq_zero]
  constructor
  · intro h row hrow
    simpa using (List.any_eq_false.mp h) row hrow
  · intro h
    exact List.any_eq_false.mpr fun row hrow => by simpa using h row hrow

/-- C3: a transcript longer than the configured maximum is replaced by a
text of length exactly the maximum plus the marker length, ending in the
truncation marker; a transcript within the maximum is passed unchanged. -/
theorem c3_truncation (t : Cell) (maxLen : Nat) :
    (maxLen < t.length →
      (truncateTranscript t maxLen).length = maxLen + truncMarker.length ∧
      ∃ pre, truncateTranscript t maxLen = pre ++ truncMarker) ∧
    (t.length ≤ maxLen → truncateTranscript t maxLen = t) := by
  constructor
  · intro h
    unfold truncateTranscript
    rw [if_pos h]
    refine ⟨?_, t.take maxLen, rfl⟩
    simp only [List.length_append, List.length_take]
    omega
  · intro h
    unfold truncateTranscript
    rw [if_neg (by omega)]

/-- Witness for C3 at a six-character transcript and maximum three, and at a
two-character transcript and maximum three. -/
theorem c3_truncation_witness :
    ( 3 < ( "abcdef".toList : Cell).length ∧
      (truncateTranscript ( "abcdef".toList) 3).length = 3 + truncMarker.length ∧
      ∃ pre, truncateTranscript ( "abcdef".toList) 3 = pre ++ truncMarker) ∧
    (( "ab".toList : Cell).length ≤ 3 ∧
      truncateTranscript ( "ab".toList) 3 = "ab".toList) :=
  ⟨⟨by decide, (c3_truncation ( "abcdef".toList) 3).1 (by decide)⟩,
   ⟨by decide, (c3_truncation ( "ab".toList) 3).2 (by decide)⟩⟩

/-- C6 as stated is refuted: a video whose description is 10 characters but
whose title has six characters makes the combined fallback reach the
50-character threshold, so the combined text, not the generic sentence, is
handed on. -/
theorem c6_counterexample :
    ( "0123456789".toList : Cell).length = 10 ∧
    fallbackTranscript ( "Abcdef".toList) ( "0123456789".toList) ≠
      fallbackGeneric ( "Abcdef".toList) := by
  constructor
  · decide
  · decide

/-- C6 amended: for a video whose description is 10 characters and whose
title is shorter than 6 characters, the title and description fallback is
under the 50-character threshold, so the fallback transcript is the generic
templated sentence referencing only the title. -/
theorem c6_fallback_generic (title desc : Cell) (hd : desc.length = 10)
    (ht : title.length < 6) :
    fallbackTranscript title desc = fallbackGeneric title := by
  have h13 : titleLabel.length = 13 := by decide
  have h21 : descLabel.length = 21 := by decide
  unfold fallbackTranscript
  rw [if_pos]
  simp only [fallbackCombined, List.length_append]
  omega

/-- Witness for C6 amended at a five-character title and ten-character
description. -/
theorem c6_fallback_generic_witness :
    ( "0123456789".toList : Cell).length = 10 ∧
    ( "Abcde".toList : Cell).length < 6 ∧
    fallbackTranscript ( "Abcde".toList) ( "0123456789".toList) =
      fallbackGeneric ( "Abcde".toList) :=
  ⟨by decide, by decide,
    c6_fallback_generic ( "Abcde".toList) ( "0123456789".toList)
      (by decide) (by decide)⟩

/-- C2: ProcessNewVideos propagates an error exactly when reading the
channel list fails; for every per-channel outcome function it otherwise
returns success with the channel failures only logged. -/
theorem c2_error_iff_channel_list (g : Except Cell (List Channel))
    (p : Channel → Except Cell Unit) :
    (∃ e, (processNewVideos g p).1 = Except.error e) ↔
      ∃ e, g = Except.error e := by
  cases g with
  | error e => simp [processNewVideos]
  | ok chs =>
    simp only [processNewVideos]
    constructor
    · rintro ⟨e, he⟩
      by_cases h : chs.length = 0 <;> simp [h] at he
    · rintro ⟨e, he⟩
      cases he

/-- C4 fails on the code: SaveSummary writes only columns A through H, so a
summary saved with status New comes back from the pending listing with its
id, video id, video title, channel name, summary text and video URL intact
but with an empty thumbnail URL, an empty duration, a zero view count, and
the created time substituted for the published time — the round-trip loses
the four fields SaveSummary never persists, although SummaryHeaders
declares their columns and GetPendingSummaries reads them. -/
theorem c4_roundtrip_loses_fields :
    getPendingSummaries parseFull parseDateOnly
        (saveSummary formatFull [exHeader] c4Saved) = [c4Returned] ∧
    c4Returned.id = c4Saved.id ∧
    c4Returned.videoID = c4Saved.videoID ∧
    c4Returned.videoTitle = c4Saved.videoTitle ∧
    c4Returned.channelName = c4Saved.channelName ∧
    c4Returned.summary = c4Saved.summary ∧
    c4Returned.videoURL = c4Saved.videoURL ∧
    c4Returned.thumbnailURL ≠ c4Saved.thumbnailURL ∧
    c4Returned.duration ≠ c4Saved.duration ∧
    c4Returned.viewCount ≠ c4Saved.viewCount ∧
    c4Returned.publishedAt ≠ c4Saved.publishedAt := by
  decide

/-- C8: marking an already-marked video id again succeeds as a no-op that
leaves the ProcessedVideos sheet unchanged, and marking never raises the
number of processed records for one id above one. -/
theorem c8_mark_video_processed_idempotent (sheet : List Row)
    (vid now : Cell) :
    (isVideoProcessed sheet vid = true →
      markVideoProcessed sheet vid now = sheet) ∧
    (processedRowsFor sheet vid ≤ 1 →
      processedRowsFor (markVideoProcessed sheet vid now) vid ≤ 1) := by
  constructor
  · intro h
    unfold markVideoProcessed
    rw [if_pos h]
  · intro h
    unfold markVideoProcessed
    cases hp : isVideoProcessed sheet vid with
    | true => simpa using h
    | false =>
      simp only [Bool.false_eq_true, if_false]
      have h0 : processedRowsFor sheet vid = 0 :=
        (isVideoProcessed_false_iff sheet vid).mp hp
      unfold processedRowsFor at h0 ⊢
      cases sheet with
      | nil => simp
      | cons header rest =>
        simp only [List.cons_append, List.drop_succ_cons, List.drop_zero] at h0 ⊢
        rw [List.countP_append, h0]
        simp [List.countP_cons]

/-- Witness for C8 on a sheet already holding the id v1. -/
theorem c8_mark_video_processed_idempotent_witness :
    isVideoProcessed [[ "VideoID".toList], [ "v1".toList]] ( "v1".toList) = true ∧
    markVideoProcessed [[ "VideoID".toList], [ "v1".toList]] ( "v1".toList)
        ( "2024-01-02 03:04:05".toList) = [[ "VideoID".toList], [ "v1".toList]] ∧
    processedRowsFor
        (markVideoProcessed [[ "VideoID".toList], [ "v1".toList]] ( "v1".toList)
          ( "2024-01-02 03:04:05".toList)) ( "v1".toList) ≤ 1 :=
  ⟨by decide,
    (c8_mark_video_processed_idempotent [[ "VideoID".toList], [ "v1".toList]]
      ( "v1".toList) ( "2024-01-02 03:04:05".toList)).1 (by decide),
    (c8_mark_video_processed_idempotent [[ "VideoID".toList], [ "v1".toList]]
      ( "v1".toList) ( "2024-01-02 03:04:05".toList)).2 (by decide)⟩

/-- Writing a cell at a column leaves that column holding the new value. -/
theorem setCellAt_getD (row : Row) (j : Nat) (v : Cell) :
    (setCellAt row j v).getD j [] = v := by
  induction j generalizing row with
  | zero => cases row <;> simp [setCellAt]
  | succ n ih =>
    cases row with
    | nil =>
      show List.getD ([] :: setCellAt [] n v) (n + 1) [] = v
      rw [List.getD_cons_succ]
      exact ih []
    | cons c rest =>
      show List.getD (c :: setCellAt rest n v) (n + 1) [] = v
      rw [List.getD_cons_succ]
      exact ih rest

/-- Writing a cell at a column extends the row past that column. -/
theorem setCellAt_length (row : Row) (j : Nat) (v : Cell) :
    j + 1 ≤ (setCellAt row j v).length := by
  induction j generalizing row with
  | zero => cases row <;> simp [setCellAt]
  | succ n ih =>
    cases row with
    | nil =>
      have := ih ([] : Row)
      simp only [setCellAt, List.length_cons]
      omega
    | cons c rest =>
      have := ih rest
      simp only [setCellAt, List.length_cons]
      omega

/-- A summary produced from a pending row carries the New status. -/
theorem rowToPending_status {T : Type} (pF pD : Cell → Option T) (row : Row)
    (s : Summary T) (h : rowToPending pF pD row = some s) :
    s.status = newStatus := by
  unfold rowToPending at h
  split_ifs at h with h1 h2
  · obtain ⟨c, hc, hs⟩ := Option.map_eq_some'.mp h
    rw [← hs, h2]

/-- A summary produced from a pending row carries the row's first cell as
its id. -/
theorem rowToPending_id {T : Type} (pF pD : Cell → Option T) (row : Row)
    (s : Summary T) (h : rowToPending pF pD row = some s) :
    s.id = row.getD 0 [] := by
  unfold rowToPending at h
  split_ifs at h with h1 h2
  · obtain ⟨c, hc, hs⟩ := Option.map_eq_some'.mp h
    rw [← hs]

/-- A row updated by MarkSummariesProcessed for a requested id never
reappears as a pending summary with that id. -/
theorem markRow_excludes {T : Type} (pF pD : Cell → Option T)
    (ids : List Cell) (row : Row) (s : Summary T) (sid : Cell)
    (hid : sid ∈ ids) (h : rowToPending pF pD (markRow ids row) = some s) :
    s.id ≠ sid := by
  cases row with
  | nil => simp [markRow, rowToPending] at h
  | cons c rest =>
    simp only [markRow] at h
    by_cases hc : c ∈ ids
    · rw [if_pos hc] at h
      exfalso
      have hlen : ¬ (setCellAt (c :: rest) 6 processedStatus).length < 7 := by
        have := setCellAt_length (c :: rest) 6 processedStatus
        omega
      have hst : (setCellAt (c :: rest) 6 processedStatus).getD 6 [] =
          processedStatus := setCellAt_getD _ _ _
      unfold rowToPending at h
      rw [if_neg hlen, if_neg (by rw [hst]; decide)] at h
      exact Option.noConfusion h
    · rw [if_neg hc] at h
      have hs : s.id = (c :: rest).getD 0 [] := rowToPending_id pF pD _ s h
      simp only [List.getD_cons_zero] at hs
      rw [hs]
      intro hEq
      exact hc (hEq ▸ hid)

/-- C5: for every date parser, the pending listing never returns a summary
with the Processed status, and after MarkSummariesProcessed on an id list
containing some id, every summary the pending listing returns has a
different id. -/
theorem c5_pending_status_and_exclusion {T : Type} (pF pD : Cell → Option T)
    (sheet : List Row) (ids : List Cell) (sid : Cell) :
    (∀ s ∈ getPendingSummaries pF pD sheet, s.status ≠ processedStatus) ∧
    (sid ∈ ids →
      ∀ s ∈ getPendingSummaries pF pD (markSummariesProcessed sheet ids),
        s.id ≠ sid) := by
  constructor
  · intro s hs
    obtain ⟨row, _, hrow⟩ := List.mem_filterMap.mp hs
    rw [rowToPending_status pF pD row s hrow]
    decide
  · intro hid s hs
    have hne : ids.isEmpty = false := by
      cases ids with
      | nil => cases hid
      | cons a l => rfl
    unfold markSummariesProcessed at hs
    rw [hne] at hs
    simp only [Bool.false_eq_true, if_false] at hs
    cases sheet with
    | nil => simp [getPendingSummaries] at hs
    | cons header rest =>
      unfold getPendingSummaries at hs
      simp only [List.drop_succ_cons, List.drop_zero] at hs
      obtain ⟨row1, hrow1, hsome⟩ := List.mem_filterMap.mp hs
      obtain ⟨row, _, rfl⟩ := List.mem_map.mp hrow1
      exact markRow_excludes pF pD ids row s sid hid hsome

/-- Witness for C5: a sheet with one New row keeps Processed out of the
listing, and after marking that row's id it is excluded. -/
theorem c5_pending_status_and_exclusion_witness :
    (∀ s ∈ getPendingSummaries parseFull parseDateOnly
        (saveSummary formatFull [exHeader] c4Saved),
      s.status ≠ processedStatus) ∧
    (∀ s ∈ getPendingSummaries parseFull parseDateOnly
        (markSummariesProcessed (saveSummary formatFull [exHeader] c4Saved)
          [ "s1".toList]),
      s.id ≠ "s1".toList) :=
  ⟨(c5_pending_status_and_exclusion parseFull parseDateOnly
      (saveSummary formatFull [exHeader] c4Saved) [ "s1".toList]
      ( "s1".toList)).1,
   (c5_pending_status_and_exclusion parseFull parseDateOnly
      (saveSummary formatFull [exHeader] c4Saved) [ "s1".toList]
      ( "s1".toList)).2 (by decide)⟩

/-- C10: a stored summary row with fewer than seven cells, or whose
created-time cell neither date parser accepts, is omitted from the pending
listing — it never reaches digest delivery, whatever its status. -/
theorem c10_malformed_rows_omitted {T : Type} (pF pD : Cell → Option T)
    (row : Row)
    (h : row.length < 7 ∨
      (pF (row.getD 5 []) = none ∧ pD (row.getD 5 []) = none)) :
    rowToPending pF pD row = none ∧
    ∀ pre post : List Row, 1 ≤ pre.length →
      getPendingSummaries pF pD (pre ++ row :: post) =
        getPendingSummaries pF pD (pre ++ post) := by
  have hnone : rowToPending pF pD row = none := by
    unfold rowToPending
    split_ifs with h1 h2
    · rfl
    · rcases h with h | ⟨hF, hD⟩
      · omega
      · unfold toSummary parseTwo
        simp only [hF, hD, Option.map_none']
    · rfl
  refine ⟨hnone, fun pre post hpre => ?_⟩
  unfold getPendingSummaries
  rw [List.drop_append_of_le_length hpre, List.drop_append_of_le_length hpre,
    List.filterMap_append, List.filterMap_append,
    List.filterMap_cons_none hnone]

/-- Witness for C10 at a one-cell row inside a two-row sheet. -/
theorem c10_malformed_rows_omitted_witness :
    rowToPending parseFull parseDateOnly c10BadRow = none ∧
    getPendingSummaries parseFull parseDateOnly
        ([exHeader] ++ c10BadRow :: []) =
      getPendingSummaries parseFull parseDateOnly ([exHeader] ++ []) :=
  ⟨(c10_malformed_rows_omitted parseFull parseDateOnly c10BadRow
      (Or.inl (by decide))).1,
   (c10_malformed_rows_omitted parseFull parseDateOnly c10BadRow
      (Or.inl (by decide))).2 [exHeader] [] (by decide)⟩

/-- C7: when transcript acquisition fails, single-video processing still
invokes the Summarizer (on the truncated synthetic transcript) and still
produces and persists a Summary record; the synthetic transcript contains
the video's title, and the record's thumbnail URL is the deterministic
fallback built from the video id. -/
theorem c7_transcript_failure_fallback (getT : Cell → Option (Cell × Cell))
    (summarize : Cell → Cell → Option Cell) (genID : Cell) (now : GoTime)
    (cfg : Config) (st : LedgerState) (v : Video) (sumText : Cell)
    (hG : getT v.id = none)
    (hS : summarize
        (truncateTranscript (fallbackTranscript v.title v.description)
          cfg.maxTranscriptLength) v.title = some sumText) :
    ∃ st2 rec,
      processVideo getT summarize genID now cfg st v = some (st2, rec) ∧
      rec.summary = sumText ∧
      rec.thumbnailURL = thumbHost ++ v.id ++ thumbTail ∧
      st2.summaries = st.summaries ++
        [[genID, v.id, v.title, v.channelName, sumText, formatFull now,
          newStatus, v.url]] ∧
      ∃ rest, fallbackTranscript v.title v.description =
        titleLabel ++ v.title ++ rest := by
  refine ⟨⟨saveSummary formatFull st.summaries
      (summaryRecord genID now v sumText (thumbFallback v.id)),
    markVideoProcessed st.processed v.id (formatFull now)⟩,
    summaryRecord genID now v sumText (thumbFallback v.id),
    ?_, rfl, rfl, rfl, ?_⟩
  · simp only [processVideo, acquireTranscript, hG, hS]
  · unfold fallbackTranscript
    by_cases hlen : (fallbackCombined v.title v.description).length < 50
    · rw [if_pos hlen]
      exact ⟨genericTail, rfl⟩
    · rw [if_neg hlen]
      exact ⟨descLabel ++ v.description, by
        simp [fallbackCombined, List.append_assoc]⟩

/-- Witness for C7 at a concrete video, failing transcript oracle and
constant summarizer. -/
theorem c7_transcript_failure_fallback_witness :
    ∃ st2 rec,
      processVideo failTranscriptOracle exSummarizeOracle ( "sum_1".toList)
          ⟨2024, 1, 2, 3, 4, 5⟩ ⟨100⟩ exLedger exVideo = some (st2, rec) ∧
      rec.summary = "S".toList ∧
      rec.thumbnailURL = thumbHost ++ exVideo.id ++ thumbTail ∧
      st2.summaries = exLedger.summaries ++
        [[ "sum_1".toList, exVideo.id, exVideo.title, exVideo.channelName,
          "S".toList, formatFull ⟨2024, 1, 2, 3, 4, 5⟩, newStatus,
          exVideo.url]] ∧
      ∃ rest, fallbackTranscript exVideo.title exVideo.description =
        titleLabel ++ exVideo.title ++ rest :=
  c7_transcript_failure_fallback failTranscriptOracle exSummarizeOracle
    ( "sum_1".toList) ⟨2024, 1, 2, 3, 4, 5⟩ ⟨100⟩ exLedger exVideo
    ( "S".toList) (by decide) (by decide)

/-- C1: starting from an initialized ledger holding neither a summary row
nor a processed mark for a video id, a successful first run of the
per-video step leaves exactly one summary row and exactly one processed
mark for that id, and a second run on the same id is a skip that changes
nothing. -/
theorem c1_video_step_idempotent (getT : Cell → Option (Cell × Cell))
    (summarize : Cell → Cell → Option Cell) (genID : Cell) (now : GoTime)
    (cfg : Config) (st st1 : LedgerState) (v : Video)
    (hs : 1 ≤ st.summaries.length) (hp : 1 ≤ st.processed.length)
    (h0 : summaryRowsFor st.summaries v.id = 0)
    (h1 : processedRowsFor st.processed v.id = 0)
    (hrun : videoStep getT summarize genID now cfg st v =
      (st1, StepOutcome.processedOk)) :
    summaryRowsFor st1.summaries v.id = 1 ∧
    processedRowsFor st1.processed v.id = 1 ∧
    videoStep getT summarize genID now cfg st1 v =
      (st1, StepOutcome.skipped) := by
  have hnp : isVideoProcessed st.processed v.id = false :=
    (isVideoProcessed_false_iff st.processed v.id).mpr h1
  unfold videoStep at hrun
  rw [hnp] at hrun
  simp only [Bool.false_eq_true, if_false] at hrun
  unfold processVideo at hrun
  cases hsum : summarize
      (truncateTranscript (acquireTranscript getT v).1
        cfg.maxTranscriptLength) v.title with
  | none =>
    rw [hsum] at hrun
    simp at hrun
  | some sumText =>
    rw [hsum] at hrun
    injection hrun with hst hout
    have hmark : markVideoProcessed st.processed v.id (formatFull now) =
        st.processed ++ [[v.id, [], [], formatFull now]] := by
      unfold markVideoProcessed
      rw [hnp]
      simp
    subst hst
    have hproc2 : isVideoProcessed
        (markVideoProcessed st.processed v.id (formatFull now)) v.id
          = true := by
      rw [hmark]
      unfold isVideoProcessed
      rw [List.drop_append_of_le_length hp, List.any_append]
      simp
    refine ⟨?_, ?_, ?_⟩
    · show summaryRowsFor
        (saveSummary formatFull st.summaries
          (summaryRecord genID now v sumText
            (acquireTranscript getT v).2)) v.id = 1
      unfold summaryRowsFor at h0 ⊢
      simp only [saveSummary]
      rw [List.drop_append_of_le_length hs, List.countP_append, h0]
      simp [List.countP_cons, fromSummary, summaryRecord]
    · show processedRowsFor
        (markVideoProcessed st.processed v.id (formatFull now)) v.id = 1
      rw [hmark]
      unfold processedRowsFor at h1 ⊢
      rw [List.drop_append_of_le_length hp, List.countP_append, h1]
      simp [List.countP_cons]
    · simp [videoStep, hproc2]

/-- Witness for C1 at a concrete ledger, video and oracles. -/
theorem c1_video_step_idempotent_witness :
    summaryRowsFor exLedgerAfter.summaries exVideo.id = 1 ∧
    processedRowsFor exLedgerAfter.processed exVideo.id = 1 ∧
    videoStep exTranscriptOracle exSummarizeOracle ( "sum_1".toList)
        ⟨2024, 1, 2, 3, 4, 5⟩ ⟨100⟩ exLedgerAfter exVideo =
      (exLedgerAfter, StepOutcome.skipped) :=
  c1_video_step_idempotent exTranscriptOracle exSummarizeOracle
    ( "sum_1".toList) ⟨2024, 1, 2, 3, 4, 5⟩ ⟨100⟩ exLedger exLedgerAfter
    exVideo (by decide) (by decide) (by decide) (by decide) (by decide)

/-- Along any interleaving, the number of running tasks equals the number
of semaphore slots taken, which never exceeds the gate capacity. -/
theorem pool_invariant (K : Nat) {p q : Pool}
    (h : Relation.ReflTransGen (PoolStep K) p q)
    (hp : activeTasks p = p.sem ∧ p.sem ≤ K) :
    activeTasks q = q.sem ∧ q.sem ≤ K := by
  induction h with
  | refl => exact hp
  | tail hsteps hstep ih =>
    obtain ⟨h1, h2⟩ := ih
    cases hstep with
    | start l1 l2 s =>
      refine ⟨?_, h2⟩
      simp only [activeTasks, List.countP_append, List.countP_cons] at h1 ⊢
      simp only [decide_eq_true_eq] at h1 ⊢
      simp at h1 ⊢
      omega
    | acquire l1 l2 s hlt =>
      constructor
      · simp only [activeTasks, List.countP_append, List.countP_cons] at h1 ⊢
        simp at h1 ⊢
        omega
      · exact hlt
    | release l1 l2 s =>
      constructor
      · simp only [activeTasks, List.countP_append, List.countP_cons] at h1 ⊢
        simp at h1 ⊢
        omega
      · have h2s : s ≤ K := h2
        show s - 1 ≤ K
        omega

/-- C9: with concurrency limit K, in every pool configuration reachable
from the initial one no more than K channel-processing tasks are running
at once — a task can pass the admission gate only while a slot is free. -/
theorem c9_concurrency_bound (K n : Nat) (p : Pool)
    (h : Relation.ReflTransGen (PoolStep K) (initPool n) p) :
    activeTasks p ≤ K := by
  have hinit : activeTasks (initPool n) = (initPool n).sem ∧
      (initPool n).sem ≤ K := by
    constructor
    · simp [activeTasks, initPool, List.countP_replicate]
    · exact Nat.zero_le K
  obtain ⟨h1, h2⟩ := pool_invariant K h hinit
  omega

/-- Witness for C9: two tasks, capacity one, after a start and an acquire. -/
theorem c9_concurrency_bound_witness : activeTasks c9Pool ≤ 1 :=
  c9_concurrency_bound 1 2 c9Pool
    (Relation.ReflTransGen.tail
      (Relation.ReflTransGen.tail Relation.ReflTransGen.refl
        (PoolStep.start [] [TaskState.notStarted] 0))
      (PoolStep.acquire [] [TaskState.notStarted] 0 Nat.zero_lt_one))

end YTD
